import Mathlib

/-!
Verification of the bartolome BLE toolkit's payload decoders and
connection-lifecycle manager against its natural-language specification.

Bytes are modelled as `Nat` (Go `byte` values are in 0..255; where a claim
quantifies over byte values the bound `< 256` appears as a hypothesis).
Fallible Go functions returning `(T, error)` are modelled as `Except`.
-/

deriving instance DecidableEq for Except

namespace TimeularSideResolver

/-- From `timeular_side_resolver/utils.go`: `IsIndicatorBitHigh` checks
whether the second-last bit (value 2) is high. -/
def IsIndicatorBitHigh (oneByte : Nat) : Bool :=
  oneByte &&& 2 == 2

/-- From `timeular_side_resolver/utils.go`: `AreAllBitsHigh`. -/
def AreAllBitsHigh (oneByte : Nat) : Bool :=
  oneByte == 0xff

/-- From `timeular_side_resolver/utils.go`: `AreAllBitsLow`. -/
def AreAllBitsLow (oneByte : Nat) : Bool :=
  oneByte == 0

/-- From `timeular_side_resolver/utils.go`: `GetSideHighOrLow` reads one
3-byte axis sub-block.  Non-3-length input is a length error; indicator bit
high with the other two bytes all-zero reads low (`false`); indicator bit
low with the other two bytes all-one reads high (`true`); anything else is
the `this side is not active` error. -/
def GetSideHighOrLow (sideBytes : List Nat) : Except String Bool :=
  match sideBytes with
  | [b0, b1, b2] =>
    if IsIndicatorBitHigh b0 then
      if AreAllBitsLow b1 && AreAllBitsLow b2 then
        Except.ok false
      else
        Except.error "this side is not active"
    else
      if AreAllBitsHigh b1 && AreAllBitsHigh b2 then
        Except.ok true
      else
        Except.error "this side is not active"
  | _ => Except.error "argument must be of length 3"

/-- Contribution of the first axis in `Resolve_Side`: `+2` when it read
high, `+4` when it read low, nothing when unreadable. -/
def sideContribFirst : Except String Bool → Nat
  | Except.ok true => 2
  | Except.ok false => 4
  | Except.error _ => 0

/-- Contribution of the second axis in `Resolve_Side`: `+6` when it read
high, nothing otherwise. -/
def sideContribSecond : Except String Bool → Nat
  | Except.ok true => 6
  | _ => 0

/-- From `timeular_side_resolver` (`Resolve_Side`): decode a 12-byte
payload into a side value.  Sub-blocks are `payload[1:4]`, `payload[5:8]`
and `payload[9:]`; the decode fails when the first and second axes are both
unreadable or when the third axis is unreadable. -/
def Resolve_Side (payload : List Nat) : Except String Nat :=
  if payload.length ≠ 12 then
    Except.error "payload must be a byte array of length 12"
  else
    let rFirst := GetSideHighOrLow ((payload.drop 1).take 3)
    let rSecond := GetSideHighOrLow ((payload.drop 5).take 3)
    let rThird := GetSideHighOrLow (payload.drop 9)
    match rFirst, rSecond with
    | Except.error _, Except.error _ =>
      Except.error "side information could not be determined"
    | _, _ =>
      match rThird with
      | Except.error _ =>
        Except.error "side information could not be determined"
      | Except.ok t =>
        Except.ok (sideContribFirst rFirst + sideContribSecond rSecond +
          (if t then 1 else 0))

/-- Axis reading as the spec's words describe it: the sub-block's first
byte's indicator bit (value 2) high with the other two bytes all-zero reads
"low"; indicator low with the other two bytes `0xFF` reads "high"; any
other pattern is unreadable (`none`). -/
def axisRead : List Nat → Option Bool
  | [b0, b1, b2] =>
    if b0 &&& 2 = 2 then
      if b1 = 0 ∧ b2 = 0 then some false else none
    else
      if b1 = 0xff ∧ b2 = 0xff then some true else none
  | _ => none

/-- Failure modes of the tri-axis decode as the spec words them: a
wrong-length input, or a side that could not be determined. -/
inductive SideFailure where
  | badLength : SideFailure
  | undetermined : SideFailure
deriving DecidableEq

/-- The tri-axis decode exactly as claim C1 words it: sub-blocks at byte
offsets 1-3, 5-7 and 9-11; the first axis contributes `+2` when it reads
low and `+4` when it reads high; the second contributes `+6` when high;
the third must be readable and contributes `+1` when high; the decode fails
when the first and second axes are both unreadable, and a non-12-length
input fails. -/
def resolveSideClaimC1 (payload : List Nat) : Except SideFailure Nat :=
  if payload.length ≠ 12 then
    Except.error SideFailure.badLength
  else
    let a1 := axisRead ((payload.drop 1).take 3)
    let a2 := axisRead ((payload.drop 5).take 3)
    let a3 := axisRead ((payload.drop 9).take 3)
    match a1, a2 with
    | none, none => Except.error SideFailure.undetermined
    | _, _ =>
      match a3 with
      | none => Except.error SideFailure.undetermined
      | some t3 =>
        Except.ok ((match a1 with
          | some false => 2
          | some true => 4
          | none => 0) +
          (match a2 with | some true => 6 | _ => 0) +
          (if t3 then 1 else 0))

/-- The amended tri-axis decode: identical to `resolveSideClaimC1` except
that the first axis contributes `+2` when it reads high and `+4` when it
reads low, which is what the source does. -/
def resolveSideAmendedC1 (payload : List Nat) : Except SideFailure Nat :=
  if payload.length ≠ 12 then
    Except.error SideFailure.badLength
  else
    let a1 := axisRead ((payload.drop 1).take 3)
    let a2 := axisRead ((payload.drop 5).take 3)
    let a3 := axisRead ((payload.drop 9).take 3)
    match a1, a2 with
    | none, none => Except.error SideFailure.undetermined
    | _, _ =>
      match a3 with
      | none => Except.error SideFailure.undetermined
      | some t3 =>
        Except.ok ((match a1 with
          | some true => 2
          | some false => 4
          | none => 0) +
          (match a2 with | some true => 6 | _ => 0) +
          (if t3 then 1 else 0))

end TimeularSideResolver

namespace Timeular

/-- Errors of `pkg/timeular/device.go`: the length check, the side-range
check, and an error returned by the registered side-change handler. -/
inductive DevError where
  | invalidLength : Nat → DevError
  | invalidSide : Nat → DevError
  | handlerFailed : String → DevError
deriving DecidableEq

/-- From `pkg/timeular/device.go` (`ResolveSide`): for the single-byte side
characteristic the data byte is the side; it must be in 1..8. -/
def ResolveSide (data : List Nat) : Except DevError Nat :=
  if data.length ≠ 1 then
    Except.error (DevError.invalidLength data.length)
  else
    let side := data.headI
    if side < 1 ∨ side > 8 then
      Except.error (DevError.invalidSide side)
    else
      Except.ok side

/-- The side-state fields of `timeular.Device` relevant to side processing
(`name`, `currentSide`, `lastSide`). -/
structure Device where
  name : String
  currentSide : Nat
  lastSide : Nat
deriving DecidableEq

/-- From `pkg/timeular/device.go` (`ProcessSideData`): validate the data
(exactly one byte, value 1..8), then shift `currentSide` into `lastSide`
and store the new side; when the side changed and a handler is registered,
the handler's result is the returned error.  The handler is passed
explicitly; it stands for the device's `sideChangeHandler` field. -/
def ProcessSideData (handler : Option (String → Nat → Option String))
    (d : Device) (data : List Nat) : Device × Option DevError :=
  if data.length ≠ 1 then
    (d, some (DevError.invalidLength data.length))
  else
    let side := data.headI
    if side < 1 ∨ side > 8 then
      (d, some (DevError.invalidSide side))
    else
      let d' : Device := { d with lastSide := d.currentSide, currentSide := side }
      if d'.currentSide ≠ d'.lastSide then
        match handler with
        | some h =>
          match h d.name d'.currentSide with
          | some msg => (d', some (DevError.handlerFailed msg))
          | none => (d', none)
        | none => (d', none)
      else
        (d', none)

end Timeular

namespace Columbus

/-- One lowercase hexadecimal digit, as Go's `%x` formatting produces. -/
def hexDigit (n : Nat) : Char :=
  if n < 10 then Char.ofNat (48 + n) else Char.ofNat (87 + n)

/-- From the columbus package (`FormatSignalAsHex`): Go's `%x` on a byte
slice — two lowercase hex characters per byte. -/
def FormatSignalAsHex (signal : List Nat) : String :=
  String.mk (signal.flatMap (fun b => [hexDigit (b / 16), hexDigit (b % 16)]))

/-- From the columbus package (`SignalToCountryHex`): format the signal as
hex; fail when the hex string is shorter than 14 characters, otherwise
return the substring at character offsets 10..13. -/
def SignalToCountryHex (signal : List Nat) : Except String String :=
  let hexStr := FormatSignalAsHex signal
  if hexStr.length < 14 then
    Except.error "signal too short for country extraction"
  else
    Except.ok (String.mk ((hexStr.data.drop 10).take 4))

end Columbus

namespace BLE

/-- From `pkg/ble/manager.go` (`DeviceConfig`): the caller-facing
descriptor fields the connection logic consults. -/
structure DeviceConfig where
  name : String
  serviceUUID : Nat
deriving DecidableEq

/-- From `pkg/ble/manager.go`: a scan result as the matching logic sees it
(`LocalName()`, `Address`, advertised service UUIDs). -/
structure ScanResult where
  localName : String
  address : String
  serviceUUIDs : List Nat
deriving DecidableEq

/-- From `pkg/ble/manager.go` (`ConnectedDevice`): the fields of a live-set
entry the claims are about. -/
structure ConnDev where
  name : String
  address : String
deriving DecidableEq

/-- From `pkg/ble/manager.go` (`findDeviceConfig`): walk the configured
descriptors in order; a descriptor matches when the advertisement carries
its service UUID, or (fallback) when the advertised local name is nonempty
and equals the descriptor name. -/
def findDeviceConfig (configs : List DeviceConfig) (result : ScanResult) :
    Option DeviceConfig :=
  configs.find? (fun config =>
    result.serviceUUIDs.contains config.serviceUUID ||
      (result.localName ≠ "" && config.name == result.localName))

/-- From `pkg/ble/manager.go` (`processDiscoveredDevice` plus the
`discoverAndConnectDevices` collection loop): a discovery event either is
ignored (no descriptor matches, the descriptor's name is already in the
live-set, or the connection attempt fails — `connectOk` is the
environment's verdict on the multi-step connect), or appends the new
`ConnectedDevice` under the descriptor's name. -/
def connectStep (configs : List DeviceConfig) (devices : List ConnDev)
    (result : ScanResult) (connectOk : Bool) : List ConnDev :=
  match findDeviceConfig configs result with
  | none => devices
  | some config =>
    if devices.any (fun d => d.name == config.name) then
      devices
    else if connectOk then
      devices ++ [⟨config.name, result.address⟩]
    else
      devices

/-- From `pkg/ble/manager.go` (`setupDisconnectMonitoring`): a disconnect
event for some address removes the first live-set entry carrying that
address, keyed by its name (`delete(m.devices, d.Name)`). -/
def disconnectStep (devices : List ConnDev) (addr : String) : List ConnDev :=
  match devices.find? (fun d => d.address == addr) with
  | none => devices
  | some d => devices.filter (fun x => x.name ≠ d.name)

/-- A connect or disconnect event as observed by the manager. -/
inductive Event where
  | connect : ScanResult → Bool → Event
  | disconnect : String → Event

/-- One manager step: dispatch an event to the live-set. -/
def step (configs : List DeviceConfig) (devices : List ConnDev) :
    Event → List ConnDev
  | Event.connect result connectOk => connectStep configs devices result connectOk
  | Event.disconnect addr => disconnectStep devices addr

/-- The live-set after a sequence of connect/disconnect events, starting
from the empty map `make(map[string]*ConnectedDevice)`. -/
def runEvents (configs : List DeviceConfig) (events : List Event) :
    List ConnDev :=
  events.foldl (step configs) []

/-- From `pkg/ble/manager.go` (`discoverAndConnectDevices`, the
`ctx.Done()` branch): when the overall timeout fires, the run fails with
`no devices found within timeout` when the live-set is empty and otherwise
returns the partial live-set as success. -/
def runUntilTimeout (configs : List DeviceConfig) (events : List Event) :
    Except String (List ConnDev) :=
  let ds := runEvents configs events
  if ds.length = 0 then
    Except.error "no devices found within timeout"
  else
    Except.ok ds

/-- Observable effects of the disconnect-monitoring callback: the live-set
afterwards, the names whose unsubscribe (`cancel`) function was invoked,
and the message sent on the run's disconnect channel. -/
structure DisconnectEffects where
  devices : List ConnDev
  cancelled : List String
  signalled : Option String
deriving DecidableEq

/-- From `pkg/ble/manager.go` (`setupDisconnectMonitoring`): on a
disconnect event, search the live-set for the address; when found, delete
that entry by name, invoke its cancel function (`disconnectDevice`), and
send `name [address] disconnected` on the disconnect channel; when the
address is absent, do nothing. -/
def handleDisconnectEvent (devices : List ConnDev) (addr : String) :
    DisconnectEffects :=
  match devices.find? (fun d => d.address == addr) with
  | none => ⟨devices, [], none⟩
  | some d =>
    ⟨devices.filter (fun x => x.name ≠ d.name), [d.name],
      some (d.name ++ " [" ++ d.address ++ "] disconnected")⟩

end BLE

namespace BluetoothConnector

/-- The process-wide adapter-enable state of
`bluetooth_connector/discover_multiple_characteristics.go`: the
`adapterEnabled` flag (guarded by `adapterMutex`) together with a count of
how often the underlying `adapter.Enable()` was invoked. -/
structure AdapterState where
  adapterEnabled : Bool
  enableCalls : Nat
deriving DecidableEq

/-- From `Discover_Multiple_Characteristics` (the `adapterMutex` block):
when the flag is still unset, call the underlying `Enable` (counted); on
success set the flag, on failure return the error with the flag unset;
when the flag is already set, skip the call.  The mutex makes the block
atomic, which the step function models by being a single transition.
`enableSucceeds` is the environment's verdict on the underlying call. -/
def enableOnce (enableSucceeds : Bool) (s : AdapterState) :
    AdapterState × Bool :=
  if s.adapterEnabled then
    (s, true)
  else
    let s' : AdapterState := { s with enableCalls := s.enableCalls + 1 }
    if enableSucceeds then
      ({ s' with adapterEnabled := true }, true)
    else
      (s', false)

end BluetoothConnector

namespace TimeularSideResolver

/-- Unfolding of `GetSideHighOrLow` on an explicit 3-byte block into
propositional conditions. -/
theorem getSideHighOrLow_three (b0 b1 b2 : Nat) :
    GetSideHighOrLow [b0, b1, b2] =
      if b0 &&& 2 = 2 then
        if b1 = 0 ∧ b2 = 0 then Except.ok false
        else Except.error "this side is not active"
      else
        if b1 = 0xff ∧ b2 = 0xff then Except.ok true
        else Except.error "this side is not active" := by
  simp only [GetSideHighOrLow, IsIndicatorBitHigh, AreAllBitsLow, AreAllBitsHigh]
  by_cases h0 : b0 &&& 2 = 2 <;> by_cases h1 : b1 = 0 <;> by_cases h2 : b2 = 0 <;>
    by_cases h3 : b1 = 0xff <;> by_cases h4 : b2 = 0xff <;>
    simp_all

/-- `GetSideHighOrLow` rejects every block whose length is not 3. -/
theorem getSideHighOrLow_badLength (l : List Nat) (h : l.length ≠ 3) :
    GetSideHighOrLow l = Except.error "argument must be of length 3" := by
  match l with
  | [] => rfl
  | [_] => rfl
  | [_, _] => rfl
  | [_, _, _] => exact absurd rfl h
  | _ :: _ :: _ :: _ :: _ => rfl

/-- The spec-worded axis reading agrees with the source's
`GetSideHighOrLow` once errors are collapsed to `none`. -/
theorem axisRead_eq_toOption (l : List Nat) :
    axisRead l = (GetSideHighOrLow l).toOption := by
  match l with
  | [] => rfl
  | [_] => rfl
  | [_, _] => rfl
  | _ :: _ :: _ :: _ :: _ => rfl
  | [b0, b1, b2] =>
    rw [getSideHighOrLow_three]
    simp only [axisRead]
    split_ifs <;> rfl

/-- The first axis contributes at most 4. -/
theorem sideContribFirst_le (r : Except String Bool) : sideContribFirst r ≤ 4 := by
  rcases r with e | b
  · simp [sideContribFirst]
  · cases b <;> simp [sideContribFirst]

/-- The second axis contributes at most 6. -/
theorem sideContribSecond_le (r : Except String Bool) : sideContribSecond r ≤ 6 := by
  rcases r with e | b
  · simp [sideContribSecond]
  · cases b <;> simp [sideContribSecond]

/-- C1 (counterexample): on the 12-byte input whose first axis reads low
(`[0x02,0x00,0x00]`), whose second axis is unreadable and whose third axis
reads low, the source's `Resolve_Side` returns 4, while the claim's
accumulation (first axis `+2` when low) would return 2. -/
theorem resolve_side_first_axis_counterexample :
    Resolve_Side [0, 2, 0, 0, 0, 255, 255, 255, 0, 2, 0, 0] = Except.ok 4 ∧
    resolveSideClaimC1 [0, 2, 0, 0, 0, 255, 255, 255, 0, 2, 0, 0] = Except.ok 2 ∧
    (4 : Nat) ≠ 2 := by
  refine ⟨by decide, by decide, by decide⟩

/-- C1 (amended): `Resolve_Side` accumulates exactly as the claim's
algorithm states once the first axis's weights are swapped — `+2` when the
first axis reads high and `+4` when it reads low (all other clauses of the
claim unchanged): the source decode and the amended spec-worded decode
`resolveSideAmendedC1` succeed on the same inputs with the same value, and
fail alike with the length failure and the undetermined-side failure. -/
theorem resolve_side_eq_amended_accumulation (payload : List Nat) :
    (∀ v, Resolve_Side payload = Except.ok v ↔
      resolveSideAmendedC1 payload = Except.ok v) ∧
    (Resolve_Side payload = Except.error "payload must be a byte array of length 12" ↔
      resolveSideAmendedC1 payload = Except.error SideFailure.badLength) ∧
    (Resolve_Side payload = Except.error "side information could not be determined" ↔
      resolveSideAmendedC1 payload = Except.error SideFailure.undetermined) := by
  by_cases hl : payload.length = 12
  · have h9 : (payload.drop 9).take 3 = payload.drop 9 :=
      List.take_of_length_le (by simp [hl])
    rcases hE1 : GetSideHighOrLow ((payload.drop 1).take 3) with e1 | b1 <;>
      rcases hE2 : GetSideHighOrLow ((payload.drop 5).take 3) with e2 | b2 <;>
      rcases hE3 : GetSideHighOrLow (payload.drop 9) with e3 | b3 <;>
      simp only [Resolve_Side, resolveSideAmendedC1, hl, h9, axisRead_eq_toOption,
        hE1, hE2, hE3, Except.toOption, sideContribFirst, sideContribSecond, ne_eq,
        not_true_eq_false, if_false, ite_false, reduceIte] <;>
      (try cases b1) <;> (try cases b2) <;> (try cases b3) <;> simp
  · simp [Resolve_Side, resolveSideAmendedC1, hl]

/-- C2 (counterexample): the input whose first axis is unreadable and whose
second and third axes read low decodes successfully to 0, which is outside
1..8; so it is false that every successful decode lands in 1..8. -/
theorem resolve_side_range_counterexample :
    Resolve_Side [0, 255, 255, 255, 0, 2, 0, 0, 0, 2, 0, 0] = Except.ok 0 ∧
    ¬(∀ v, Resolve_Side [0, 255, 255, 255, 0, 2, 0, 0, 0, 2, 0, 0] = Except.ok v →
        1 ≤ v ∧ v ≤ 8) := by
  refine ⟨by decide, fun hcl => ?_⟩
  have h := (hcl 0 (by decide)).1
  omega

/-- C2 (amended): every successful `Resolve_Side` decode returns a value
in 0..11 (the upper bound 11 and the lower bound 0 are both attained). -/
theorem resolve_side_ok_le_eleven (payload : List Nat) (v : Nat)
    (h : Resolve_Side payload = Except.ok v) : v ≤ 11 := by
  simp only [Resolve_Side] at h
  split at h
  · simp at h
  · split at h
    · simp at h
    · split at h
      · simp at h
      · rename_i t heq
        simp only [Except.ok.injEq] at h
        subst h
        have h1 := sideContribFirst_le (GetSideHighOrLow ((payload.drop 1).take 3))
        have h2 := sideContribSecond_le (GetSideHighOrLow ((payload.drop 5).take 3))
        have h3 : (if t then 1 else 0) ≤ 1 := by split <;> omega
        omega

/-- C2 (amended, witness): the bound applied at the concrete input that
decodes to 11. -/
theorem resolve_side_ok_le_eleven_witness : (11 : Nat) ≤ 11 :=
  resolve_side_ok_le_eleven [0, 2, 0, 0, 0, 253, 255, 255, 0, 253, 255, 255] 11
    (by decide)

/-- C8: for every byte, `IsIndicatorBitHigh` is true iff bit 1 is set,
`AreAllBitsHigh` iff the byte is `0xFF`, `AreAllBitsLow` iff it is 0; a
3-byte block reads low iff the indicator is high and the other bytes are
both 0, reads high iff the indicator is low and the other bytes are both
`0xFF`, fails with `this side is not active` on every other 3-byte
pattern, and fails with the length error off length 3. -/
theorem indicator_bit_and_axis_characterization :
    (∀ x : Nat, x < 256 →
      ((IsIndicatorBitHigh x = true ↔ x &&& 2 = 2) ∧
       (AreAllBitsHigh x = true ↔ x = 0xff) ∧
       (AreAllBitsLow x = true ↔ x = 0))) ∧
    (∀ b0 b1 b2 : Nat,
      (GetSideHighOrLow [b0, b1, b2] = Except.ok false ↔
        b0 &&& 2 = 2 ∧ b1 = 0 ∧ b2 = 0) ∧
      (GetSideHighOrLow [b0, b1, b2] = Except.ok true ↔
        ¬(b0 &&& 2 = 2) ∧ b1 = 0xff ∧ b2 = 0xff) ∧
      (¬(b0 &&& 2 = 2 ∧ b1 = 0 ∧ b2 = 0) →
       ¬(¬(b0 &&& 2 = 2) ∧ b1 = 0xff ∧ b2 = 0xff) →
        GetSideHighOrLow [b0, b1, b2] = Except.error "this side is not active")) ∧
    (∀ l : List Nat, l.length ≠ 3 →
      GetSideHighOrLow l = Except.error "argument must be of length 3") := by
  refine ⟨fun x _ => ⟨by simp [IsIndicatorBitHigh], by simp [AreAllBitsHigh],
    by simp [AreAllBitsLow]⟩, fun b0 b1 b2 => ?_, getSideHighOrLow_badLength⟩
  refine ⟨?_, ?_, ?_⟩ <;> rw [getSideHighOrLow_three] <;> split_ifs <;> simp_all

/-- C8 (witness): the characterization applied at the spec's own sample
blocks. -/
theorem indicator_bit_and_axis_characterization_witness :
    (IsIndicatorBitHigh 3 = true ↔ 3 &&& 2 = 2) ∧
    (GetSideHighOrLow [2, 0, 0] = Except.ok false ↔ 2 &&& 2 = 2 ∧ 0 = 0 ∧ 0 = 0) ∧
    GetSideHighOrLow [2, 255, 0] = Except.error "this side is not active" ∧
    GetSideHighOrLow [1, 0] = Except.error "argument must be of length 3" :=
  ⟨(indicator_bit_and_axis_characterization.1 3 (by decide)).1,
   (indicator_bit_and_axis_characterization.2.1 2 0 0).1,
   (indicator_bit_and_axis_characterization.2.1 2 255 0).2.2 (by decide) (by decide),
   indicator_bit_and_axis_characterization.2.2 [1, 0] (by decide)⟩

end TimeularSideResolver

namespace Timeular

/-- C7: the single-byte decoder succeeds with exactly the input byte iff it
is in 1..8 and fails with the invalid-side error on every other byte value;
non-1-length inputs fail with the length error; `ProcessSideData` (with no
side-change handler registered) accepts exactly the same inputs. -/
theorem resolve_side_single_byte :
    (∀ b : Nat, b < 256 →
      ((ResolveSide [b] = Except.ok b ↔ 1 ≤ b ∧ b ≤ 8) ∧
       (¬(1 ≤ b ∧ b ≤ 8) → ResolveSide [b] = Except.error (DevError.invalidSide b)))) ∧
    (∀ data : List Nat, data.length ≠ 1 →
      ResolveSide data = Except.error (DevError.invalidLength data.length)) ∧
    (∀ (d : Device) (b : Nat), b < 256 →
      ((ProcessSideData none d [b]).2 = none ↔ 1 ≤ b ∧ b ≤ 8)) ∧
    (∀ (d : Device) (data : List Nat), data.length ≠ 1 →
      (ProcessSideData none d data).2 = some (DevError.invalidLength data.length)) := by
  refine ⟨fun b hb => ⟨?_, ?_⟩, fun data hd => ?_, fun d b hb => ?_, fun d data hd => ?_⟩
  · unfold ResolveSide
    simp only [List.length_cons, List.length_nil, List.headI]
    split_ifs with h1 h2 <;> simp_all <;> omega
  · intro hnot
    unfold ResolveSide
    simp only [List.length_cons, List.length_nil, List.headI]
    rw [if_neg (by omega), if_pos (by omega)]
  · unfold ResolveSide
    rw [if_pos hd]
  · unfold ProcessSideData
    simp only [List.length_cons, List.length_nil, List.headI]
    rw [if_neg (by omega)]
    split_ifs with h2 <;> simp_all <;> omega
  · unfold ProcessSideData
    rw [if_pos hd]

/-- C7 (witness): the single-byte decoder at concrete inputs. -/
theorem resolve_side_single_byte_witness :
    ResolveSide [5] = Except.ok 5 ∧
    ResolveSide [9] = Except.error (DevError.invalidSide 9) ∧
    ResolveSide [] = Except.error (DevError.invalidLength 0) :=
  ⟨(resolve_side_single_byte.1 5 (by decide)).1.mpr (by decide),
   (resolve_side_single_byte.1 9 (by decide)).2 (by decide),
   resolve_side_single_byte.2.1 [] (by decide)⟩

/-- C10: `ProcessSideData` is atomic with respect to the device's side
state: any input failing validation (length not 1, or side outside 1..8)
yields an error and returns the device unchanged, for every registered
handler; a valid input shifts `currentSide` into `lastSide` and stores the
new side. -/
theorem process_side_data_atomic :
    (∀ (hnd : Option (String → Nat → Option String)) (d : Device) (data : List Nat),
      data.length ≠ 1 →
      ProcessSideData hnd d data = (d, some (DevError.invalidLength data.length))) ∧
    (∀ (hnd : Option (String → Nat → Option String)) (d : Device) (b : Nat),
      b < 1 ∨ b > 8 →
      ProcessSideData hnd d [b] = (d, some (DevError.invalidSide b))) ∧
    (∀ (hnd : Option (String → Nat → Option String)) (d : Device) (b : Nat),
      1 ≤ b → b ≤ 8 →
      (ProcessSideData hnd d [b]).1.currentSide = b ∧
      (ProcessSideData hnd d [b]).1.lastSide = d.currentSide ∧
      (ProcessSideData hnd d [b]).1.name = d.name) := by
  refine ⟨fun hnd d data hlen => ?_, fun hnd d b hb => ?_, fun hnd d b hb1 hb8 => ?_⟩
  · unfold ProcessSideData
    rw [if_pos hlen]
  · unfold ProcessSideData
    simp only [List.length_cons, List.length_nil, List.headI]
    rw [if_neg (by omega), if_pos hb]
  · unfold ProcessSideData
    simp only [List.length_cons, List.length_nil, List.headI]
    rw [if_neg (by omega), if_neg (by omega)]
    split_ifs with hchanged
    · rcases hnd with _ | f
      · simp
      · rcases hf : f d.name b with _ | msg <;> simp [hf]
    · simp

/-- C10 (witness): atomicity at a concrete device and concrete inputs. -/
theorem process_side_data_atomic_witness :
    ProcessSideData none ⟨"tracker", 3, 2⟩ [] =
      (⟨"tracker", 3, 2⟩, some (DevError.invalidLength 0)) ∧
    ProcessSideData none ⟨"tracker", 3, 2⟩ [9] =
      (⟨"tracker", 3, 2⟩, some (DevError.invalidSide 9)) ∧
    (ProcessSideData none ⟨"tracker", 3, 2⟩ [5]).1.currentSide = 5 ∧
    (ProcessSideData none ⟨"tracker", 3, 2⟩ [5]).1.lastSide = 3 :=
  ⟨process_side_data_atomic.1 none ⟨"tracker", 3, 2⟩ [] (by decide),
   process_side_data_atomic.2.1 none ⟨"tracker", 3, 2⟩ 9 (by decide),
   (process_side_data_atomic.2.2 none ⟨"tracker", 3, 2⟩ 5 (by decide) (by decide)).1,
   (process_side_data_atomic.2.2 none ⟨"tracker", 3, 2⟩ 5 (by decide) (by decide)).2.1⟩

end Timeular

namespace Columbus

/-- The hex rendering is two characters per input byte. -/
theorem formatSignal_length (signal : List Nat) :
    (FormatSignalAsHex signal).length = 2 * signal.length := by
  show (signal.flatMap _).length = _
  induction signal with
  | nil => rfl
  | cons b rest ih =>
    simp only [List.flatMap_cons, List.length_append, List.length_cons,
      List.length_nil] at *
    omega

/-- C9: `SignalToCountryHex` renders the signal as lowercase hex (two
characters per byte), fails with the signal-too-short error exactly when
that rendering has fewer than 14 characters, and otherwise returns the
substring at character offsets 10..13; on the spec's sample signal it
returns `"3b1d"`. -/
theorem signal_to_country_hex_characterization :
    (∀ signal : List Nat, (FormatSignalAsHex signal).length = 2 * signal.length) ∧
    (∀ signal : List Nat, (FormatSignalAsHex signal).length < 14 →
      SignalToCountryHex signal =
        Except.error "signal too short for country extraction") ∧
    (∀ signal : List Nat, 14 ≤ (FormatSignalAsHex signal).length →
      SignalToCountryHex signal =
        Except.ok (String.mk (((FormatSignalAsHex signal).data.drop 10).take 4))) ∧
    SignalToCountryHex [0x0e, 0xa0, 0x00, 0x00, 0x00, 0x3b, 0x1d, 0x00] =
      Except.ok "3b1d" := by
  refine ⟨formatSignal_length, fun s h => ?_, fun s h => ?_, by decide⟩
  · unfold SignalToCountryHex
    rw [if_pos h]
  · unfold SignalToCountryHex
    rw [if_neg (by omega)]

/-- C9 (witness): the too-short branch at a concrete 1-byte signal and the
success branch at the spec's sample signal. -/
theorem signal_to_country_hex_witness :
    SignalToCountryHex [1] =
      Except.error "signal too short for country extraction" ∧
    SignalToCountryHex [14, 160, 0, 0, 0, 59, 29, 0] =
      Except.ok (String.mk (((FormatSignalAsHex
        [14, 160, 0, 0, 0, 59, 29, 0]).data.drop 10).take 4)) :=
  ⟨signal_to_country_hex_characterization.2.1 [1] (by decide),
   signal_to_country_hex_characterization.2.2.1 [14, 160, 0, 0, 0, 59, 29, 0]
     (by decide)⟩

end Columbus

namespace BLE

/-- A connect event either leaves the live-set unchanged or appends one
entry named after a configured descriptor whose name was not yet present. -/
theorem connectStep_cases (configs : List DeviceConfig) (devices : List ConnDev)
    (result : ScanResult) (connectOk : Bool) :
    connectStep configs devices result connectOk = devices ∨
    ∃ config, config ∈ configs ∧
      (∀ d ∈ devices, d.name ≠ config.name) ∧
      connectStep configs devices result connectOk =
        devices ++ [⟨config.name, result.address⟩] := by
  unfold connectStep
  cases hf : findDeviceConfig configs result with
  | none => exact Or.inl rfl
  | some config =>
    by_cases ha : devices.any (fun d => d.name == config.name) = true
    · left
      simp [ha]
    · cases hok : connectOk
      · left
        simp [ha]
      · right
        refine ⟨config, ?_, ?_, by simp [ha]⟩
        · exact List.mem_of_find?_eq_some hf
        · intro d hd hEq
          apply ha
          simp only [List.any_eq_true]
          exact ⟨d, hd, by simp [hEq]⟩

/-- A disconnect event only removes entries. -/
theorem disconnectStep_sublist (devices : List ConnDev) (addr : String) :
    List.Sublist (disconnectStep devices addr) devices := by
  unfold disconnectStep
  cases devices.find? (fun d => d.address == addr) with
  | none => exact List.Sublist.refl _
  | some d => exact List.filter_sublist _

/-- One manager step preserves name-uniqueness and keeps every entry named
after a configured descriptor. -/
theorem step_inv (configs : List DeviceConfig) (devices : List ConnDev) (e : Event)
    (h1 : (devices.map ConnDev.name).Nodup)
    (h2 : ∀ d ∈ devices, d.name ∈ configs.map DeviceConfig.name) :
    ((step configs devices e).map ConnDev.name).Nodup ∧
    ∀ d ∈ step configs devices e, d.name ∈ configs.map DeviceConfig.name := by
  cases e with
  | connect result connectOk =>
    rcases connectStep_cases configs devices result connectOk with h | ⟨config, hc, hfresh, h⟩
    · simp only [step, h]
      exact ⟨h1, h2⟩
    · simp only [step, h]
      constructor
      · rw [List.map_append, List.nodup_append]
        refine ⟨h1, List.nodup_singleton _, ?_⟩
        intro x hx
        simp only [List.map_cons, List.map_nil, List.mem_singleton]
        intro hx1
        rcases List.mem_map.mp hx with ⟨d, hd, rfl⟩
        exact (hfresh d hd) hx1
      · intro d hd
        rcases List.mem_append.mp hd with hd | hd
        · exact h2 d hd
        · simp only [List.mem_singleton] at hd
          subst hd
          exact List.mem_map.mpr ⟨config, hc, rfl⟩
  | disconnect addr =>
    have hsub := disconnectStep_sublist devices addr
    constructor
    · exact h1.sublist (hsub.map _)
    · intro d hd
      exact h2 d (hsub.mem hd)

/-- After any event sequence the live-set's names are unique and drawn from
the configured descriptor names. -/
theorem runEvents_inv (configs : List DeviceConfig) (events : List Event) :
    ((runEvents configs events).map ConnDev.name).Nodup ∧
    ∀ d ∈ runEvents configs events, d.name ∈ configs.map DeviceConfig.name := by
  suffices h : ∀ devices : List ConnDev,
      (devices.map ConnDev.name).Nodup →
      (∀ d ∈ devices, d.name ∈ configs.map DeviceConfig.name) →
      ((events.foldl (step configs) devices).map ConnDev.name).Nodup ∧
      ∀ d ∈ events.foldl (step configs) devices,
        d.name ∈ configs.map DeviceConfig.name by
    exact h [] (by simp) (by simp)
  induction events with
  | nil => intro devices hd1 hd2; exact ⟨hd1, hd2⟩
  | cons e rest ih =>
    intro devices hd1 hd2
    have hstep := step_inv configs devices e hd1 hd2
    exact ih (step configs devices e) hstep.1 hstep.2

/-- C3: after any sequence of connect/disconnect events over descriptors
with pairwise-distinct names, the live-set never exceeds the number of
configured descriptors, holds at most one entry per descriptor name, and
every entry's name equals the name of exactly one configured descriptor. -/
theorem live_set_invariant (configs : List DeviceConfig) (events : List Event)
    (hnd : (configs.map DeviceConfig.name).Nodup) :
    (runEvents configs events).length ≤ configs.length ∧
    ((runEvents configs events).map ConnDev.name).Nodup ∧
    ∀ d ∈ runEvents configs events, ∃ c, c ∈ configs ∧ c.name = d.name ∧
      ∀ c', c' ∈ configs → c'.name = d.name → c' = c := by
  obtain ⟨hdup, hmem⟩ := runEvents_inv configs events
  refine ⟨?_, hdup, ?_⟩
  · have hsub : (runEvents configs events).map ConnDev.name ⊆
        configs.map DeviceConfig.name := by
      intro x hx
      rcases List.mem_map.mp hx with ⟨d, hd, rfl⟩
      exact hmem d hd
    have hlen := (List.subperm_of_subset hdup hsub).length_le
    simpa using hlen
  · intro d hd
    rcases List.mem_map.mp (hmem d hd) with ⟨c, hc, hcn⟩
    refine ⟨c, hc, hcn, ?_⟩
    intro c' hc' hcn'
    exact List.inj_on_of_nodup_map hnd hc' hc (hcn'.trans hcn.symm)

/-- C3 (witness): the invariant at two configured descriptors and a
concrete event sequence of two connects (one duplicate) and a disconnect. -/
theorem live_set_invariant_witness :
    (runEvents [⟨"a", 1⟩, ⟨"b", 2⟩]
        [Event.connect ⟨"a", "A1", [1]⟩ true,
         Event.connect ⟨"a", "A2", [1]⟩ true,
         Event.disconnect "A1"]).length ≤ 2 ∧
    ((runEvents [⟨"a", 1⟩, ⟨"b", 2⟩]
        [Event.connect ⟨"a", "A1", [1]⟩ true,
         Event.connect ⟨"a", "A2", [1]⟩ true,
         Event.disconnect "A1"]).map ConnDev.name).Nodup :=
  ⟨(live_set_invariant [⟨"a", 1⟩, ⟨"b", 2⟩] _ (by decide)).1,
   (live_set_invariant [⟨"a", 1⟩, ⟨"b", 2⟩]
      [Event.connect ⟨"a", "A1", [1]⟩ true,
       Event.connect ⟨"a", "A2", [1]⟩ true,
       Event.disconnect "A1"] (by decide)).2.1⟩

/-- C4: when the overall discovery timeout elapses, the run succeeds with
the partial live-set whenever at least one device connected, and fails with
the no-devices-found error exactly when the live-set is empty. -/
theorem timeout_partial_success (configs : List DeviceConfig) (events : List Event) :
    (1 ≤ (runEvents configs events).length →
      runUntilTimeout configs events = Except.ok (runEvents configs events)) ∧
    ((runEvents configs events).length = 0 →
      runUntilTimeout configs events =
        Except.error "no devices found within timeout") := by
  constructor
  · intro h
    unfold runUntilTimeout
    rw [if_neg (by omega)]
  · intro h
    unfold runUntilTimeout
    rw [if_pos h]

/-- C4 (witness): two descriptors of which only one ever matches — the run
returns success with a live-set of size 1; and a run in which nothing
matched fails. -/
theorem timeout_partial_success_witness :
    runUntilTimeout [⟨"a", 1⟩, ⟨"b", 2⟩] [Event.connect ⟨"a", "A1", [1]⟩ true] =
      Except.ok (runEvents [⟨"a", 1⟩, ⟨"b", 2⟩]
        [Event.connect ⟨"a", "A1", [1]⟩ true]) ∧
    runUntilTimeout [⟨"a", 1⟩, ⟨"b", 2⟩] [] =
      Except.error "no devices found within timeout" :=
  ⟨(timeout_partial_success [⟨"a", 1⟩, ⟨"b", 2⟩]
      [Event.connect ⟨"a", "A1", [1]⟩ true]).1 (by decide),
   (timeout_partial_success [⟨"a", 1⟩, ⟨"b", 2⟩] []).2 (by decide)⟩

/-- C6: a disconnect event for an address present in the live-set removes
that entry, invokes exactly its unsubscribe function, and signals the
disconnect channel with a message naming the device and its address; for an
absent address nothing happens. -/
theorem disconnect_event_effects (devices : List ConnDev) (addr : String) :
    ((∃ d ∈ devices, d.address = addr) →
      ∃ d, d ∈ devices ∧ d.address = addr ∧
        (∀ x, x ∈ (handleDisconnectEvent devices addr).devices ↔
          (x ∈ devices ∧ x.name ≠ d.name)) ∧
        (handleDisconnectEvent devices addr).cancelled = [d.name] ∧
        (handleDisconnectEvent devices addr).signalled =
          some (d.name ++ " [" ++ d.address ++ "] disconnected")) ∧
    ((∀ d ∈ devices, d.address ≠ addr) →
      handleDisconnectEvent devices addr = ⟨devices, [], none⟩) := by
  constructor
  · intro hex
    have hsome : (devices.find? (fun d => d.address == addr)).isSome := by
      rw [List.find?_isSome]
      rcases hex with ⟨d, hd, hda⟩
      exact ⟨d, hd, by simp [hda]⟩
    rcases hfind : devices.find? (fun d => d.address == addr) with _ | d
    · rw [hfind] at hsome
      simp at hsome
    · refine ⟨d, List.mem_of_find?_eq_some hfind, ?_, ?_, ?_, ?_⟩
      · have := List.find?_some hfind
        simpa using this
      · intro x
        unfold handleDisconnectEvent
        rw [hfind]
        simp [List.mem_filter]
      · unfold handleDisconnectEvent
        rw [hfind]
      · unfold handleDisconnectEvent
        rw [hfind]
  · intro hall
    have hnone : devices.find? (fun d => d.address == addr) = none := by
      rw [List.find?_eq_none]
      intro d hd
      simp [hall d hd]
    unfold handleDisconnectEvent
    rw [hnone]

/-- C6 (witness): a two-device live-set with one matching address, and the
same live-set with an absent address. -/
theorem disconnect_event_effects_witness :
    (∃ d, d ∈ [ConnDev.mk "a" "A", ConnDev.mk "b" "B"] ∧ d.address = "B" ∧
      (∀ x, x ∈ (handleDisconnectEvent [ConnDev.mk "a" "A", ConnDev.mk "b" "B"]
          "B").devices ↔
        (x ∈ [ConnDev.mk "a" "A", ConnDev.mk "b" "B"] ∧ x.name ≠ d.name)) ∧
      (handleDisconnectEvent [ConnDev.mk "a" "A", ConnDev.mk "b" "B"]
          "B").cancelled = [d.name] ∧
      (handleDisconnectEvent [ConnDev.mk "a" "A", ConnDev.mk "b" "B"]
          "B").signalled =
        some (d.name ++ " [" ++ d.address ++ "] disconnected")) ∧
    handleDisconnectEvent [ConnDev.mk "a" "A", ConnDev.mk "b" "B"] "C" =
      ⟨[ConnDev.mk "a" "A", ConnDev.mk "b" "B"], [], none⟩ :=
  ⟨(disconnect_event_effects [ConnDev.mk "a" "A", ConnDev.mk "b" "B"] "B").1
      ⟨ConnDev.mk "b" "B", by decide, rfl⟩,
   (disconnect_event_effects [ConnDev.mk "a" "A", ConnDev.mk "b" "B"] "C").2
      (by decide)⟩

end BLE

namespace BluetoothConnector

/-- C5: adapter enabling is idempotent — starting not-yet-enabled, the
first `enableOnce` performs exactly one underlying `Enable` call and sets
the flag; the second call is a no-op (state unchanged, no further
underlying call).  The mutex guard is modelled by `enableOnce` being a
single atomic transition on the flag state. -/
theorem adapter_enable_idempotent (s0 : AdapterState)
    (h0 : s0.adapterEnabled = false) :
    (enableOnce true s0).1.enableCalls = s0.enableCalls + 1 ∧
    (enableOnce true s0).1.adapterEnabled = true ∧
    (enableOnce true (enableOnce true s0).1).1 = (enableOnce true s0).1 ∧
    (enableOnce true (enableOnce true s0).1).1.enableCalls = s0.enableCalls + 1 := by
  rcases s0 with ⟨e, c⟩
  simp only [AdapterState.adapterEnabled] at h0
  subst h0
  simp [enableOnce]

/-- C5 (witness): two sequential enables from the fresh state perform
exactly one underlying enable call. -/
theorem adapter_enable_idempotent_witness :
    (enableOnce true ⟨false, 0⟩).1.enableCalls = 0 + 1 ∧
    (enableOnce true (enableOnce true ⟨false, 0⟩).1).1 =
      (enableOnce true ⟨false, 0⟩).1 :=
  ⟨(adapter_enable_idempotent ⟨false, 0⟩ rfl).1,
   (adapter_enable_idempotent ⟨false, 0⟩ rfl).2.2.1⟩

end BluetoothConnector
